import Mathlib

/-!
# Verification of the networking / cluster-DNS manifest generators

A shallow embedding of `pkg/asset/manifests` (the `Networking` asset in
`networking.go` and the `clusterDNSOperator` asset in
`cluster-dns-operator.go`), together with proofs of the behavioural
properties stated in the design document.

External collaborators (the YAML codec, the `ipnet.IPNet` wrapper, the file
fetcher, the asset-dependency framework) are modelled abstractly, following
the design document's instruction to treat them as opaque standard
components:

* `ipnet.IPNet` is modelled by the pair of observations the generator makes
  of it: whether the wrapped IP `IsUnspecified()`, and its `String()` form.
* the YAML codec is modelled as an injective encoder with an exact decoder
  (`Bytes.yamlNet` carries a marshalled `NetworkConfig`; any other byte
  content fails to decode).  The generator is plain data, so `yaml.Marshal`
  cannot fail on it and is modelled total.
* a file fetcher is an arbitrary function `String → Except GoError File`;
  `os.IsNotExist` holds exactly of the `GoError.notExist` constructor
  (`errors.Wrapf` of the `pkg/errors` vintage used here does not preserve
  it).
-/

set_option autoImplicit false

/-- Go errors, as observed by this module: `os.IsNotExist`-style errors,
`errors.Errorf` formatted errors, `errors.Wrapf` wrappings, and anything
else. -/
inductive GoError where
  | notExist (name : String) : GoError
  | errorf (msg : String) : GoError
  | wrap (err : GoError) (msg : String) : GoError
  | other (msg : String) : GoError
deriving DecidableEq, Repr

/-- `os.IsNotExist`: true exactly of errors reporting that a file or
directory does not exist. -/
def GoError.isNotExist : GoError → Bool
  | .notExist _ => true
  | _ => false

/-- Model of the external `ipnet.IPNet` wrapper by the two observations the
generator makes of a CIDR value: `unspecified` records
`IPNet.IP.IsUnspecified()` and `str` records `String()`. -/
structure IPNet where
  unspecified : Bool
  str : String
deriving DecidableEq, Repr

/-- `netopv1.NetworkType` is a string type in the operator API. -/
abbrev NetworkType := String

/-- `netopv1.NetworkTypeOpenshiftSDN` (external constant). -/
def NetworkTypeOpenshiftSDN : NetworkType := "OpenshiftSDN"

/-- `netopv1.SDNMode` is a string type in the operator API. -/
abbrev SDNMode := String

/-- `netopv1.SDNModePolicy` (external constant). -/
def SDNModePolicy : SDNMode := "NetworkPolicy"

/-- `netopv1.ClusterNetwork`: a CIDR string plus a host subnet length. -/
structure ClusterNetwork where
  CIDR : String
  HostSubnetLength : Nat
deriving DecidableEq, Repr

/-- `netopv1.OpenshiftSDNConfig`, restricted to the one field this module
sets; the remaining fields keep their zero values throughout. -/
structure OpenshiftSDNConfig where
  Mode : SDNMode
deriving DecidableEq, Repr

/-- `netopv1.DefaultNetworkDefinition`: a plugin type plus the (nilable)
plugin-specific configuration.  The Go field `Type` is spelled `type'`
because `Type` is reserved in Lean. -/
structure DefaultNetworkDefinition where
  type' : NetworkType
  OpenshiftSDNConfig : Option OpenshiftSDNConfig
deriving DecidableEq, Repr

/-- `metav1.TypeMeta`, restricted to the fields this module sets. -/
structure TypeMeta where
  APIVersion : String
  Kind : String
deriving DecidableEq, Repr

/-- `metav1.ObjectMeta`, restricted to the fields this module sets. -/
structure ObjectMeta where
  Name : String
deriving DecidableEq, Repr

/-- `netopv1.NetworkConfigSpec`. -/
structure NetworkConfigSpec where
  ServiceNetwork : String
  ClusterNetworks : List ClusterNetwork
  DefaultNetwork : DefaultNetworkDefinition
deriving DecidableEq, Repr

/-- `netopv1.NetworkConfig`. -/
structure NetworkConfig where
  TypeMeta : TypeMeta
  ObjectMeta : ObjectMeta
  Spec : NetworkConfigSpec
deriving DecidableEq, Repr

/-- `netopv1.SchemeGroupVersion.String()` (external constant). -/
def SchemeGroupVersionString : String := "networkoperator.openshift.io/v1"

/-- File contents.  `raw` is arbitrary byte content; `yamlNet c` is the
byte content produced by `yaml.Marshal` on the `NetworkConfig` `c` (the
codec model: marshalling is injective, and exactly its outputs decode). -/
inductive Bytes where
  | raw (s : String) : Bytes
  | yamlNet (c : NetworkConfig) : Bytes
deriving DecidableEq, Repr

/-- `yaml.Marshal` on a `NetworkConfig`.  The config is plain data, so
marshalling cannot fail and is modelled total. -/
def yamlMarshalNetworkConfig (c : NetworkConfig) : Bytes :=
  Bytes.yamlNet c

/-- `yaml.Unmarshal` of byte content into a fresh `NetworkConfig`:
succeeds exactly on marshalled configs, anything else is a parse error. -/
def yamlUnmarshalNetworkConfig : Bytes → Except GoError NetworkConfig
  | Bytes.yamlNet c => Except.ok c
  | Bytes.raw s => Except.error (GoError.other ("error converting YAML to JSON: " ++ s))

/-- `asset.File`: a (filename, byte content) pair. -/
structure File where
  Filename : String
  Data : Bytes
deriving DecidableEq, Repr

/-- `types.Networking`: the networking section of the install config
(fields read by this module).  The Go field `Type` is spelled `type'`. -/
structure TypesNetworking where
  type' : NetworkType
  ServiceCIDR : IPNet
  PodCIDR : IPNet
  ClusterNetworks : List ClusterNetwork
deriving DecidableEq, Repr

/-- `types.InstallConfig`, restricted to the fields these generators
read.  (`Generate` obtains it through the dependency graph as
`installConfig.Config`; the graph plumbing is external and the config is
passed directly here.) -/
structure InstallConfig where
  Networking : TypesNetworking
  BaseDomain : String
deriving DecidableEq, Repr

/-- `manifestDir`, defined elsewhere in the package: the fixed directory
manifests are written to. -/
def manifestDir : String := "manifests"

/-- `filepath.Join` of a directory and a file name. -/
def filepathJoin (dir name : String) : String := dir ++ "/" ++ name

/-- `noCrdFilename = filepath.Join(manifestDir, "cluster-network-01-crd.yml")`. -/
def noCrdFilename : String := filepathJoin manifestDir "cluster-network-01-crd.yml"

/-- `noCfgFilename = filepath.Join(manifestDir, "cluster-network-02-config.yml")`. -/
def noCfgFilename : String := filepathJoin manifestDir "cluster-network-02-config.yml"

/-- The fixed CRD manifest text `netConfigCRD`. -/
def netConfigCRD : String :=
  "\napiVersion: apiextensions.k8s.io/v1beta1\nkind: CustomResourceDefinition\nmetadata:\n  name: networkconfigs.networkoperator.openshift.io\nspec:\n  group: networkoperator.openshift.io\n  names:\n    kind: NetworkConfig\n    listKind: NetworkConfigList\n    plural: networkconfigs\n    singular: networkconfig\n  scope: Cluster\n  versions:\n    - name: v1\n      served: true\n      storage: true\n"

/-- The `Networking` asset: the (nilable) generated config and the
generated file list.  Both start out nil/empty. -/
structure Networking where
  config : Option NetworkConfig
  FileList : List File
deriving DecidableEq, Repr

/-- The `NetworkConfig` literal built at the end of a successful
`Generate`, from the install config's networking section and the chosen
cluster-network list (source lines 94–122). -/
def generatedNetworkConfig (netConfig : TypesNetworking)
    (clusterNets : List ClusterNetwork) : NetworkConfig :=
  { TypeMeta := { APIVersion := SchemeGroupVersionString, Kind := "NetworkConfig" }
    ObjectMeta := { Name := "default" }
    Spec :=
      { ServiceNetwork := netConfig.ServiceCIDR.str
        ClusterNetworks := clusterNets
        DefaultNetwork :=
          { type' := netConfig.type'
            OpenshiftSDNConfig :=
              if netConfig.type' = NetworkTypeOpenshiftSDN then
                some { Mode := SDNModePolicy }
              else
                none } } }

/-- The asset state after a successful `Generate`: the derived config plus
the two files `[CRD text, marshalled config]` (source lines 107–138). -/
def generatedState (netConfig : TypesNetworking)
    (clusterNets : List ClusterNetwork) : Networking :=
  { config := some (generatedNetworkConfig netConfig clusterNets)
    FileList :=
      [ { Filename := noCrdFilename, Data := Bytes.raw netConfigCRD }
      , { Filename := noCfgFilename
        , Data := yamlMarshalNetworkConfig (generatedNetworkConfig netConfig clusterNets) } ] }

/-- `Networking.Generate` (source lines 71–141): choose the
cluster-network list (explicit list if non-empty, else a single entry
synthesised from the pod CIDR with host subnet length 9, else fail), build
the config, marshal it, and store the asset state.  Returns the updated
asset alongside the Go error result. -/
def Networking.Generate (no : Networking) (installConfig : InstallConfig) :
    Networking × Option GoError :=
  let netConfig := installConfig.Networking
  if netConfig.ClusterNetworks.length > 0 then
    (generatedState netConfig netConfig.ClusterNetworks, none)
  else if !netConfig.PodCIDR.unspecified then
    (generatedState netConfig
      [{ CIDR := netConfig.PodCIDR.str, HostSubnetLength := 9 }], none)
  else
    (no, some (GoError.errorf "Either PodCIDR or ClusterNetworks must be specified"))

/-- `Networking.Files` (source lines 144–146). -/
def Networking.Files (no : Networking) : List File :=
  no.FileList

/-- `clusterv1a1.NetworkRanges`. -/
structure NetworkRanges where
  CIDRBlocks : List String
deriving DecidableEq, Repr

/-- `clusterv1a1.ClusterNetworkingConfig`. -/
structure ClusterNetworkingConfig where
  Services : NetworkRanges
  Pods : NetworkRanges
deriving DecidableEq, Repr

/-- `Networking.ClusterNetwork` (source lines 151–171): fails when called
before the config is populated; otherwise collects the cluster-network
CIDRs (by an append loop over the list) and the service network. -/
def Networking.ClusterNetwork (no : Networking) :
    Except GoError ClusterNetworkingConfig :=
  match no.config with
  | none => Except.error (GoError.errorf "ClusterNetwork called before initialization")
  | some config =>
    let pods := config.Spec.ClusterNetworks.foldl
      (fun pods cn => pods ++ [cn.CIDR]) ([] : List String)
    Except.ok
      { Services := { CIDRBlocks := [config.Spec.ServiceNetwork] }
        Pods := { CIDRBlocks := pods } }

/-- `Networking.Load` (source lines 174–202): fetch the CRD file, then the
config file (a does-not-exist failure of either yields `(false, nil)`, any
other fetch error propagates), unmarshal the config file (a parse failure
is wrapped with the filename), and only then assign the asset state.
Returns the updated asset alongside the Go `(bool, error)` pair. -/
def Networking.Load (no : Networking) (f : String → Except GoError File) :
    Networking × Bool × Option GoError :=
  match f noCrdFilename with
  | Except.error err =>
    if err.isNotExist then (no, false, none) else (no, false, some err)
  | Except.ok crdFile =>
    match f noCfgFilename with
    | Except.error err =>
      if err.isNotExist then (no, false, none) else (no, false, some err)
    | Except.ok cfgFile =>
      match yamlUnmarshalNetworkConfig cfgFile.Data with
      | Except.error err =>
        (no, false, some (GoError.wrap err ("failed to unmarshal " ++ noCfgFilename)))
      | Except.ok netConfig =>
        ({ config := some netConfig, FileList := [crdFile, cfgFile] }, true, none)

/-- A fetcher serving exactly a given list of generated files by name;
every other name does not exist. -/
def fetcherOfFiles (files : List File) : String → Except GoError File :=
  fun name =>
    match files.find? (fun file => file.Filename == name) with
    | some file => Except.ok file
    | none => Except.error (GoError.notExist name)

/-! ## The cluster-DNS operator generator

`clusterdnsopapi.ClusterDNS` and the helper `dnsOperatorConfig` from
`cluster-dns-operator.go`.  The external helper
`installconfig.ClusterDNSIP` is passed in as its result.  The caller
`dnsConfig` (line 95) reads `return yaml.Marshal(cdo.dnsOperatorConfig())`,
which hands both return values of `dnsOperatorConfig` — the config and its
error — to the one-argument `yaml.Marshal`; that line is not valid Go and
in particular never propagates the helper's error, so it has no executable
translation here. -/

/-- `clusterdnsopapi.ClusterDNSSpec`, restricted to the fields set here
(both are pointers in Go, hence options). -/
structure ClusterDNSSpec where
  ClusterIP : Option String
  ClusterDomain : Option String
deriving DecidableEq, Repr

/-- `clusterdnsopapi.ClusterDNS`, restricted to the fields set here. -/
structure ClusterDNS where
  Spec : ClusterDNSSpec
deriving DecidableEq, Repr

/-- `clusterDNSOperator.dnsOperatorConfig` (source lines 79–92): propagate
a failure of the external `installconfig.ClusterDNSIP` helper, else build
the `ClusterDNS` from the cluster IP and the install config's base
domain. -/
def clusterDNSOperator.dnsOperatorConfig (clusterDNSIP : Except GoError String)
    (installConfig : InstallConfig) : Except GoError ClusterDNS :=
  match clusterDNSIP with
  | Except.error err => Except.error err
  | Except.ok clusterIP =>
    Except.ok
      { Spec := { ClusterIP := some clusterIP
                  ClusterDomain := some installConfig.BaseDomain } }

/-! ## Concrete fixtures used by witnesses and counterexamples -/

/-- An install config with an empty cluster-network list and a specified
pod CIDR. -/
def icPod : InstallConfig :=
  { Networking :=
      { type' := "OpenshiftSDN"
        ServiceCIDR := { unspecified := false, str := "172.30.0.0/16" }
        PodCIDR := { unspecified := false, str := "10.2.0.0/16" }
        ClusterNetworks := [] }
    BaseDomain := "example.com" }

/-- An install config with an explicit two-entry cluster-network list and
an unspecified pod CIDR. -/
def icNets : InstallConfig :=
  { Networking :=
      { type' := "Calico"
        ServiceCIDR := { unspecified := false, str := "172.30.0.0/16" }
        PodCIDR := { unspecified := true, str := "<nil>" }
        ClusterNetworks :=
          [ { CIDR := "10.128.0.0/14", HostSubnetLength := 9 }
          , { CIDR := "10.0.0.0/16", HostSubnetLength := 8 } ] }
    BaseDomain := "example.com" }

/-- An install config specifying neither a cluster-network list nor a pod
CIDR. -/
def icNone : InstallConfig :=
  { Networking :=
      { type' := "OpenshiftSDN"
        ServiceCIDR := { unspecified := false, str := "172.30.0.0/16" }
        PodCIDR := { unspecified := true, str := "<nil>" }
        ClusterNetworks := [] }
    BaseDomain := "example.com" }

/-- A freshly constructed `Networking` asset (nil config, nil file list). -/
def noEmpty : Networking := { config := none, FileList := [] }

/-- A fetcher for which every file is absent. -/
def fetchAllMissing : String → Except GoError File :=
  fun name => Except.error (GoError.notExist name)

/-- A fetcher that fails with a non-does-not-exist error on the CRD file
and reports does-not-exist for every other name, the config file
included. -/
def fetchCrdBoom : String → Except GoError File :=
  fun name =>
    if name = noCrdFilename then Except.error (GoError.other "permission denied")
    else Except.error (GoError.notExist name)

/-- A fetcher serving both expected files, the config file with content
that does not parse as a `NetworkConfig`. -/
def fetchBadYaml : String → Except GoError File :=
  fun name =>
    if name = noCrdFilename then
      Except.ok { Filename := noCrdFilename, Data := Bytes.raw netConfigCRD }
    else
      Except.ok { Filename := noCfgFilename, Data := Bytes.raw "not a NetworkConfig" }

/-- A sample generated config, as derived from `icPod`. -/
def netCfgSample : NetworkConfig :=
  generatedNetworkConfig icPod.Networking
    [{ CIDR := "10.2.0.0/16", HostSubnetLength := 9 }]

/-- A `Networking` asset whose config has been populated. -/
def noLoaded : Networking := { config := some netCfgSample, FileList := [] }

/-! ## Helper lemmas -/

/-- The append loop in `ClusterNetwork` computes the map of `CIDR` over
the cluster-network list. -/
lemma foldl_append_CIDR (l : List ClusterNetwork) (acc : List String) :
    l.foldl (fun pods cn => pods ++ [cn.CIDR]) acc
      = acc ++ l.map (fun cn => cn.CIDR) := by
  induction l generalizing acc with
  | nil => simp
  | cons cn l ih => simp [List.foldl, ih]

/-- Whenever `Generate` succeeds, the resulting asset is `generatedState`
of the install config's networking section and some cluster-network
list. -/
lemma Generate_success_shape (no : Networking) (ic : InstallConfig)
    (h : (Networking.Generate no ic).2 = none) :
    ∃ clusterNets,
      (Networking.Generate no ic).1 = generatedState ic.Networking clusterNets := by
  unfold Networking.Generate at h ⊢
  by_cases h1 : ic.Networking.ClusterNetworks.length > 0
  · rw [if_pos h1]
    exact ⟨_, rfl⟩
  · rw [if_neg h1] at h ⊢
    cases h2 : ic.Networking.PodCIDR.unspecified with
    | false =>
      simp only [h2, Bool.not_false, if_true]
      exact ⟨_, rfl⟩
    | true =>
      simp [h2] at h

/-- `Load` through a fetcher serving exactly the files of a generated
state reproduces that state and reports `(true, nil)`. -/
lemma Load_fetcherOfFiles_generatedState (no₀ : Networking)
    (netConfig : TypesNetworking) (clusterNets : List ClusterNetwork) :
    Networking.Load no₀ (fetcherOfFiles (generatedState netConfig clusterNets).FileList)
      = (generatedState netConfig clusterNets, true, none) :=
  rfl

/-! ## The claims -/

/-- C1: with an empty cluster-network list and a pod CIDR that is not the
unspecified address, `Generate` succeeds and the generated config's
`Spec.ClusterNetworks` is exactly one entry: the pod CIDR's string form
with host subnet length 9. -/
theorem Generate_podCIDR_default (no : Networking) (ic : InstallConfig)
    (h1 : ic.Networking.ClusterNetworks = [])
    (h2 : ic.Networking.PodCIDR.unspecified = false) :
    (Networking.Generate no ic).2 = none ∧
      (Networking.Generate no ic).1.config.map (fun c => c.Spec.ClusterNetworks)
        = some [{ CIDR := ic.Networking.PodCIDR.str, HostSubnetLength := 9 }] := by
  simp [Networking.Generate, h1, h2, generatedState, generatedNetworkConfig]

/-- Witness for C1 at `icPod`. -/
theorem Generate_podCIDR_default_witness :
    (Networking.Generate noEmpty icPod).2 = none ∧
      (Networking.Generate noEmpty icPod).1.config.map (fun c => c.Spec.ClusterNetworks)
        = some [{ CIDR := icPod.Networking.PodCIDR.str, HostSubnetLength := 9 }] :=
  Generate_podCIDR_default noEmpty icPod rfl rfl

/-- C2: with a non-empty cluster-network list, `Generate` succeeds and the
generated config's `Spec.ClusterNetworks` is that list unchanged,
regardless of the pod CIDR. -/
theorem Generate_explicit_list (no : Networking) (ic : InstallConfig)
    (h : ic.Networking.ClusterNetworks ≠ []) :
    (Networking.Generate no ic).2 = none ∧
      (Networking.Generate no ic).1.config.map (fun c => c.Spec.ClusterNetworks)
        = some ic.Networking.ClusterNetworks := by
  have h1 : ic.Networking.ClusterNetworks.length > 0 := List.length_pos.mpr h
  simp [Networking.Generate, h1, generatedState, generatedNetworkConfig]

/-- Witness for C2 at `icNets`. -/
theorem Generate_explicit_list_witness :
    (Networking.Generate noEmpty icNets).2 = none ∧
      (Networking.Generate noEmpty icNets).1.config.map (fun c => c.Spec.ClusterNetworks)
        = some icNets.Networking.ClusterNetworks :=
  Generate_explicit_list noEmpty icNets (by decide)

/-- C3: with an empty cluster-network list and an unspecified pod CIDR,
`Generate` fails with the must-specify-networking error and leaves the
asset untouched. -/
theorem Generate_neither_fails (no : Networking) (ic : InstallConfig)
    (h1 : ic.Networking.ClusterNetworks = [])
    (h2 : ic.Networking.PodCIDR.unspecified = true) :
    Networking.Generate no ic
      = (no, some (GoError.errorf "Either PodCIDR or ClusterNetworks must be specified")) := by
  simp [Networking.Generate, h1, h2]

/-- Witness for C3 at `icNone`. -/
theorem Generate_neither_fails_witness :
    Networking.Generate noEmpty icNone
      = (noEmpty, some (GoError.errorf "Either PodCIDR or ClusterNetworks must be specified")) :=
  Generate_neither_fails noEmpty icNone rfl rfl

/-- C5: on every successful `Generate`, the default-network definition's
type is copied from the install config's network type, and plugin-specific
configuration is attached exactly when that type is `OpenshiftSDN`, in
which case it is an `OpenshiftSDNConfig` with mode `SDNModePolicy`. -/
theorem Generate_defaultNetwork (no : Networking) (ic : InstallConfig)
    (h : (Networking.Generate no ic).2 = none) :
    ∃ c, (Networking.Generate no ic).1.config = some c ∧
      c.Spec.DefaultNetwork.type' = ic.Networking.type' ∧
      c.Spec.DefaultNetwork.OpenshiftSDNConfig
        = (if ic.Networking.type' = NetworkTypeOpenshiftSDN then
            some { Mode := SDNModePolicy }
          else
            none) := by
  obtain ⟨nets, hshape⟩ := Generate_success_shape no ic h
  exact ⟨_, by rw [hshape]; rfl, rfl, rfl⟩

/-- Witness for C5 at `icPod`. -/
theorem Generate_defaultNetwork_witness :
    ∃ c, (Networking.Generate noEmpty icPod).1.config = some c ∧
      c.Spec.DefaultNetwork.type' = icPod.Networking.type' ∧
      c.Spec.DefaultNetwork.OpenshiftSDNConfig
        = (if icPod.Networking.type' = NetworkTypeOpenshiftSDN then
            some { Mode := SDNModePolicy }
          else
            none) :=
  Generate_defaultNetwork noEmpty icPod rfl

/-- Counterexample to C6 as stated: `fetchCrdBoom` reports does-not-exist
for the config file, yet `Load` returns the CRD fetch's non-does-not-exist
error rather than `(false, nil)`, because the CRD file is fetched first. -/
theorem Load_notExist_claim_false :
    fetchCrdBoom noCfgFilename = Except.error (GoError.notExist noCfgFilename) ∧
      (GoError.notExist noCfgFilename).isNotExist = true ∧
      (Networking.Load noEmpty fetchCrdBoom).2
        = (false, some (GoError.other "permission denied")) ∧
      (Networking.Load noEmpty fetchCrdBoom).2 ≠ (false, none) := by
  refine ⟨rfl, rfl, rfl, by decide⟩

/-- C6 (amended): `Load` fetches the CRD file first; if that fetch fails,
it returns `(false, nil)` for a does-not-exist error and `(false, err)`
otherwise, without consulting the config file.  If the CRD fetch succeeds
and the config fetch fails, the same discrimination applies to that
error. -/
theorem Load_fetch_errors (no : Networking) (f : String → Except GoError File) :
    (∀ e, f noCrdFilename = Except.error e →
      Networking.Load no f
        = if e.isNotExist then (no, false, none) else (no, false, some e)) ∧
    (∀ file e, f noCrdFilename = Except.ok file →
      f noCfgFilename = Except.error e →
      Networking.Load no f
        = if e.isNotExist then (no, false, none) else (no, false, some e)) := by
  constructor
  · intro e he
    unfold Networking.Load
    rw [he]
  · intro file e hf he
    unfold Networking.Load
    rw [hf, he]

/-- Witness for C6 (amended): a fully absent file set yields
`(false, nil)`; a non-does-not-exist CRD fetch error propagates. -/
theorem Load_fetch_errors_witness :
    Networking.Load noEmpty fetchAllMissing = (noEmpty, false, none) ∧
      Networking.Load noEmpty fetchCrdBoom
        = (noEmpty, false, some (GoError.other "permission denied")) := by
  constructor
  · have h := (Load_fetch_errors noEmpty fetchAllMissing).1
      (GoError.notExist noCrdFilename) rfl
    simpa [GoError.isNotExist] using h
  · have h := (Load_fetch_errors noEmpty fetchCrdBoom).1
      (GoError.other "permission denied") rfl
    simpa [GoError.isNotExist] using h

/-- C7: when both files fetch successfully but the config file's bytes do
not parse as a `NetworkConfig`, `Load` returns `false` together with the
parse error wrapped with the config filename as context. -/
theorem Load_parse_error (no : Networking) (f : String → Except GoError File)
    (crdFile cfgFile : File) (e : GoError)
    (h1 : f noCrdFilename = Except.ok crdFile)
    (h2 : f noCfgFilename = Except.ok cfgFile)
    (h3 : yamlUnmarshalNetworkConfig cfgFile.Data = Except.error e) :
    Networking.Load no f
      = (no, false, some (GoError.wrap e ("failed to unmarshal " ++ noCfgFilename))) := by
  simp [Networking.Load, h1, h2, h3]

/-- Witness for C7 at `fetchBadYaml`. -/
theorem Load_parse_error_witness :
    Networking.Load noEmpty fetchBadYaml
      = (noEmpty, false,
          some (GoError.wrap
            (GoError.other "error converting YAML to JSON: not a NetworkConfig")
            ("failed to unmarshal " ++ noCfgFilename))) :=
  Load_parse_error noEmpty fetchBadYaml
    { Filename := noCrdFilename, Data := Bytes.raw netConfigCRD }
    { Filename := noCfgFilename, Data := Bytes.raw "not a NetworkConfig" }
    (GoError.other "error converting YAML to JSON: not a NetworkConfig")
    rfl rfl rfl

/-- C10: whenever `Load` reports `false`, the asset is unchanged — the
stored config and file list are assigned only after both fetches and the
parse have succeeded. -/
theorem Load_failure_no_mutation (no : Networking)
    (f : String → Except GoError File)
    (h : (Networking.Load no f).2.1 = false) :
    (Networking.Load no f).1 = no := by
  unfold Networking.Load at h ⊢
  cases h1 : f noCrdFilename with
  | error e => cases hne : e.isNotExist <;> simp [hne]
  | ok crdFile =>
    cases h2 : f noCfgFilename with
    | error e => cases hne : e.isNotExist <;> simp [hne]
    | ok cfgFile =>
      dsimp only at h ⊢
      cases h3 : yamlUnmarshalNetworkConfig cfgFile.Data with
      | error e => rfl
      | ok c => simp [h1, h2, h3] at h

/-- Witness for C10 at `fetchCrdBoom`. -/
theorem Load_failure_no_mutation_witness :
    (Networking.Load noEmpty fetchCrdBoom).1 = noEmpty :=
  Load_failure_no_mutation noEmpty fetchCrdBoom (by decide)

/-- C4: `Load` through a fetcher serving exactly the two files a
successful `Generate` produced reports `(true, nil)` and reproduces the
generated asset — config and file list alike. -/
theorem Generate_Load_roundtrip (no no₀ : Networking) (ic : InstallConfig)
    (h : (Networking.Generate no ic).2 = none) :
    Networking.Load no₀ (fetcherOfFiles (Networking.Generate no ic).1.FileList)
      = ((Networking.Generate no ic).1, true, none) := by
  obtain ⟨nets, hshape⟩ := Generate_success_shape no ic h
  rw [hshape]
  exact Load_fetcherOfFiles_generatedState no₀ _ _

/-- Witness for C4 at `icPod`. -/
theorem Generate_Load_roundtrip_witness :
    Networking.Load noEmpty
        (fetcherOfFiles (Networking.Generate noEmpty icPod).1.FileList)
      = ((Networking.Generate noEmpty icPod).1, true, none) :=
  Generate_Load_roundtrip noEmpty noEmpty icPod rfl

/-- C9: `ClusterNetwork` fails exactly when the config is not yet
populated; on a populated config it returns the single service-network
string as the services CIDR blocks and the cluster networks' CIDRs, in
order, as the pods CIDR blocks. -/
theorem ClusterNetwork_spec (no : Networking) :
    (no.config = none →
      Networking.ClusterNetwork no
        = Except.error (GoError.errorf "ClusterNetwork called before initialization")) ∧
    (∀ c, no.config = some c →
      Networking.ClusterNetwork no
        = Except.ok
            { Services := { CIDRBlocks := [c.Spec.ServiceNetwork] }
              Pods := { CIDRBlocks := c.Spec.ClusterNetworks.map (fun cn => cn.CIDR) } }) := by
  constructor
  · intro h
    unfold Networking.ClusterNetwork
    rw [h]
  · intro c h
    unfold Networking.ClusterNetwork
    rw [h]
    simp [foldl_append_CIDR]

/-- Witness for C9: the fresh asset fails; a populated asset returns the
derived CIDR blocks. -/
theorem ClusterNetwork_spec_witness :
    Networking.ClusterNetwork noEmpty
      = Except.error (GoError.errorf "ClusterNetwork called before initialization") ∧
      Networking.ClusterNetwork noLoaded
        = Except.ok
            { Services := { CIDRBlocks := [netCfgSample.Spec.ServiceNetwork] }
              Pods := { CIDRBlocks :=
                netCfgSample.Spec.ClusterNetworks.map (fun cn => cn.CIDR) } } :=
  ⟨(ClusterNetwork_spec noEmpty).1 rfl,
   (ClusterNetwork_spec noLoaded).2 netCfgSample rfl⟩

/-- C8 (supporting): when the external `ClusterDNSIP` helper fails,
`dnsOperatorConfig` itself does return that error — so for the claimed
propagation to the caller everything hinges on `dnsConfig`, whose body
`return yaml.Marshal(cdo.dnsOperatorConfig())` hands this error value to
the one-argument `yaml.Marshal` instead of returning it (not valid Go),
contradicting the claim. -/
theorem dnsOperatorConfig_propagates_error (e : GoError) (ic : InstallConfig) :
    clusterDNSOperator.dnsOperatorConfig (Except.error e) ic = Except.error e :=
  rfl
